import Mathlib

/-!
# Verification of the configurable vehicle-dynamics engine

A shallow embedding (over `ℚ`) of `app/physics_customizable.py`
(`ConfigurablePhysicsEngine`) together with the data model it uses
(`app/models.py`, `app/physics_config.py`), and proofs about the claims of
the specification.

Modelling conventions:
* Python floats are modelled as exact rationals (`ℚ`); arithmetic is exact.
* `math.pi` is modelled by `pi_float`, the exact rational value of the IEEE-754
  double `math.pi`.
* `math.exp`, `math.sin` and the power `** 1.5` are transcendental; they are
  supplied through a `MathPrims` record of rational-valued functions, mirroring
  the `import math` dependency.  Theorems quantify over the record; concrete
  evaluations pick inputs where the true value is rational (e.g. `exp 0 = 1`).
* Python `round(x, n)` (round-half-even to `n` decimal places) is `pyRound`.
* Python list indexing (including negative indices) is `pyIdx`; out-of-range
  indices, which raise `IndexError` in Python, are given the junk value `0` and
  are never reached in the verified paths.
-/

set_option maxRecDepth 400000

/-- Exact rational value of the IEEE-754 double `math.pi`. -/
def pi_float : ℚ := 884279719003555 / 281474976710656

/-- Standard gravity constant `GRAVITY = 9.81` of `ConfigurablePhysicsEngine`. -/
def GRAVITY : ℚ := 9.81

/-- Specific gas constant `AIR_GAS_CONSTANT = 287.05` of the engine. -/
def AIR_GAS_CONSTANT : ℚ := 287.05

/-- Rational-valued models of the `math` library functions used by the engine:
`sin`, `exp`, and `x ** 1.5` (`pow15`). -/
structure MathPrims where
  sin : ℚ → ℚ
  exp : ℚ → ℚ
  pow15 : ℚ → ℚ

/-- Round-half-even to an integer (the tie-breaking rule of Python `round`). -/
def roundHalfEven (x : ℚ) : ℤ :=
  if x - ⌊x⌋ < 1/2 then ⌊x⌋
  else if 1/2 < x - ⌊x⌋ then ⌊x⌋ + 1
  else if ⌊x⌋ % 2 = 0 then ⌊x⌋ else ⌊x⌋ + 1

/-- Python `round(x, n)`: round to the nearest multiple of `10^(-n)`,
ties to even. -/
def pyRound (x : ℚ) (n : ℕ) : ℚ := (roundHalfEven (x * 10 ^ n) : ℚ) / 10 ^ n

/-- Python list indexing `l[i]` (with negative-index wraparound); an
out-of-range access raises `IndexError` in Python and is modelled as `0`. -/
def pyIdx (l : List ℚ) (i : ℤ) : ℚ :=
  if 0 ≤ i then l.getD i.toNat 0
  else l.getD (l.length - (-i).toNat) 0

/-- A point of the engine torque curve (`models.TorquePoint`). -/
structure TorquePoint where
  rpm : ℚ
  torque : ℚ
deriving DecidableEq

/-- The vehicle specification (`models.Vehicle`); `gear_ratios` is the
derived property `[gear.ratio for gear in self.gears]`.  Fields not read by
`ConfigurablePhysicsEngine` are omitted. -/
structure Vehicle where
  mass : ℚ
  drag_coefficient : ℚ
  frontal_area : ℚ
  final_drive : ℚ
  transmission_efficiency : ℚ
  gear_ratios : List ℚ
  electric_torque_nm : Option ℚ
  electric_max_speed_kmh : Option ℚ
  idle_rpm : ℚ
  redline_rpm : ℚ
  torque_curve : List TorquePoint
  tire_radius : ℚ
  rolling_resistance_coef : ℚ
deriving DecidableEq

/-- `models.EnvironmentConditions`. -/
structure EnvironmentConditions where
  temperature_celsius : ℚ := 20
  altitude_meters : ℚ := 0
  air_pressure_kpa : ℚ := 101.325
deriving DecidableEq

/-- `physics_config.TirePhysicsConfig` (fields read by the engine). -/
structure TirePhysicsConfig where
  initial_tire_temp : ℚ := 25
  optimal_tire_temp : ℚ := 85
  max_tire_temp : ℚ := 150
  heating_from_acceleration : ℚ := 2
  heating_from_speed : ℚ := 0.5
  cooling_rate : ℚ := 0.02
  base_friction_coefficient : ℚ := 1.3
  cold_tire_penalty : ℚ := 0.30
  hot_tire_penalty : ℚ := 0.30
  optimal_temp_window : ℚ := 5
  wear_rate : ℚ := 0.0001
  max_wear_grip_loss : ℚ := 0.30
  wear_heating_multiplier : ℚ := 1.2
  speed_grip_reduction : ℚ := 0.15
  hydroplaning_speed : ℚ := 200
deriving DecidableEq

/-- `physics_config.WeightTransferConfig` (fields read by the engine). -/
structure WeightTransferConfig where
  base_front_weight : ℚ := 0.40
  transfer_coefficient : ℚ := 0.15
  max_rear_weight : ℚ := 0.85
  min_rear_weight : ℚ := 0.40
deriving DecidableEq

/-- `physics_config.LaunchControlConfig` (fields read by the engine). -/
structure LaunchControlConfig where
  enabled : Bool := true
  rpm_target_percent : ℚ := 0.65
  rpm_variation : ℚ := 50
  completion_speed : ℚ := 5
deriving DecidableEq

/-- `physics_config.TurboBoostConfig` (fields read by the engine). -/
structure TurboBoostConfig where
  enabled : Bool := true
  max_boost_pressure : ℚ := 2
  spool_rate : ℚ := 3
  boost_decay_rate : ℚ := 5
  power_multiplier_per_bar : ℚ := 0.12
  min_rpm_for_boost : ℚ := 2000
  max_rpm_for_boost : ℚ := 8000
  throttle_threshold : ℚ := 0.5
deriving DecidableEq

/-- `physics_config.DRSConfig` (fields read by the engine). -/
structure DRSConfig where
  enabled : Bool := true
  min_activation_speed : ℚ := 150
  drag_reduction : ℚ := 0.15
  activation_delay : ℚ := 0.5
  deactivation_delay : ℚ := 0.3
deriving DecidableEq

/-- `physics_config.GearboxConfig` (fields read by the engine). -/
structure GearboxConfig where
  shift_duration : ℚ := 0.15
  shift_power_loss : ℚ := 0.30
  clutch_slip : ℚ := 0.15
  gear_1_shift_percent : ℚ := 0.68
  gear_2_shift_percent : ℚ := 0.72
  gear_3_shift_percent : ℚ := 0.76
  gear_4_shift_percent : ℚ := 0.78
  gear_5_shift_percent : ℚ := 0.81
  gear_6plus_shift_percent : ℚ := 0.84
  final_gear_shift_percent : ℚ := 0.95
  min_rpm_after_shift : ℚ := 0.52
deriving DecidableEq

/-- `physics_config.AerodynamicsConfig` (fields read by the engine). -/
structure AerodynamicsConfig where
  drag_multiplier : ℚ := 1
  air_density_multiplier : ℚ := 1
  humidity_factor : ℚ := 0.98
deriving DecidableEq

/-- `physics_config.FuelSystemConfig` (fields read by the engine). -/
structure FuelSystemConfig where
  enabled : Bool := false
  initial_fuel_kg : ℚ := 100
  consumption_rate_idle : ℚ := 0.5
  consumption_rate_cruise : ℚ := 8
  consumption_rate_full_throttle : ℚ := 45
  fuel_weight_affects_performance : Bool := true
deriving DecidableEq

/-- `physics_config.BrakeSystemConfig` (fields read by the engine). -/
structure BrakeSystemConfig where
  enabled : Bool := false
  initial_brake_temp : ℚ := 100
deriving DecidableEq

/-- `physics_config.HybridSystemConfig` (fields read by the engine). -/
structure HybridSystemConfig where
  enable_battery_soc : Bool := false
  initial_battery_soc : ℚ := 1
  battery_capacity_kwh : ℚ := 7.5
  min_battery_reserve : ℚ := 0.10
  motor_efficiency : ℚ := 0.95
deriving DecidableEq

/-- `physics_config.TractionControlConfig` (fields read by the engine). -/
structure TractionControlConfig where
  enabled : Bool := true
  intervention_aggression : ℚ := 0.5
deriving DecidableEq

/-- `physics_config.WeatherConfig` (fields read by the engine). -/
structure WeatherConfig where
  track_condition : String := "dry"
  dry_grip_multiplier : ℚ := 1
  damp_grip_multiplier : ℚ := 0.85
  wet_grip_multiplier : ℚ := 0.60
  snow_grip_multiplier : ℚ := 0.30
  ice_grip_multiplier : ℚ := 0.10
deriving DecidableEq

/-- `physics_config.PhysicsConfig` (sub-configurations read by the engine). -/
structure PhysicsConfig where
  tires : TirePhysicsConfig := {}
  weight_transfer : WeightTransferConfig := {}
  launch_control : LaunchControlConfig := {}
  turbo : TurboBoostConfig := {}
  drs : DRSConfig := {}
  gearbox : GearboxConfig := {}
  aerodynamics : AerodynamicsConfig := {}
  fuel : FuelSystemConfig := {}
  brakes : BrakeSystemConfig := {}
  hybrid : HybridSystemConfig := {}
  traction_control : TractionControlConfig := {}
  weather : WeatherConfig := {}
  enable_all_systems : Bool := true
deriving DecidableEq

/-- `models.TimeSnapshot`. -/
structure TimeSnapshot where
  time : ℚ
  distance : ℚ
  velocity : ℚ
  acceleration : ℚ
  gear : ℤ
  rpm : ℚ
  power_kw : ℚ
deriving DecidableEq

/-- The `ConfigurablePhysicsEngine` object: its three constructor inputs, the
air density computed at construction, and all mutable state installed by
`_initialize_state`. -/
structure Engine where
  vehicle : Vehicle
  environment : EnvironmentConditions
  config : PhysicsConfig
  air_density : ℚ
  tire_temp_fl : ℚ
  tire_temp_fr : ℚ
  tire_temp_rl : ℚ
  tire_temp_rr : ℚ
  tire_wear : ℚ
  launch_control_active : Bool
  launch_completed : Bool
  boost_pressure : ℚ
  boost_active_time : ℚ
  drs_active : Bool
  drs_deployment : ℚ
  is_shifting : Bool
  shift_time_remaining : ℚ
  current_fuel_kg : ℚ
  brake_temp_front : ℚ
  brake_temp_rear : ℚ
  battery_soc : ℚ
  tc_intervention : ℚ
  shift_velocities : List ℚ
deriving DecidableEq

/-- `ConfigurablePhysicsEngine._calculate_air_density`; `m.exp` models
`math.exp`. -/
def calculate_air_density (m : MathPrims) (env : EnvironmentConditions)
    (aero : AerodynamicsConfig) : ℚ :=
  let temp_kelvin := env.temperature_celsius + 273.15
  let pressure_pa := env.air_pressure_kpa * 1000
  let pressure_pa := pressure_pa * m.exp (-env.altitude_meters / 8400)
  let density := pressure_pa / (AIR_GAS_CONSTANT * temp_kelvin)
  density * aero.air_density_multiplier * aero.humidity_factor

/-- The shift percent chosen for gear index `i` (0-based) out of `len` gears in
`_calculate_shift_velocities`: the five per-gear percents first, then the
final-gear percent, then the 6-plus percent. -/
def shift_percent_for (g : GearboxConfig) (len i : ℕ) : ℚ :=
  if i = 0 then g.gear_1_shift_percent
  else if i = 1 then g.gear_2_shift_percent
  else if i = 2 then g.gear_3_shift_percent
  else if i = 3 then g.gear_4_shift_percent
  else if i = 4 then g.gear_5_shift_percent
  else if i = len - 1 then g.final_gear_shift_percent
  else g.gear_6plus_shift_percent

/-- `ConfigurablePhysicsEngine._calculate_shift_velocities`. -/
def calculate_shift_velocities (veh : Vehicle) (g : GearboxConfig) : List ℚ :=
  (List.range veh.gear_ratios.length).map fun i =>
    let shift_rpm := veh.redline_rpm * shift_percent_for g veh.gear_ratios.length i
    let grat := veh.gear_ratios.getD i 0
    let trat := grat * veh.final_drive
    (shift_rpm * 2 * pi_float * veh.tire_radius) / (60 * trat)

/-- `ConfigurablePhysicsEngine._initialize_state`. -/
def initialize_state (e : Engine) : Engine :=
  { e with
    tire_temp_fl := e.config.tires.initial_tire_temp
    tire_temp_fr := e.config.tires.initial_tire_temp
    tire_temp_rl := e.config.tires.initial_tire_temp
    tire_temp_rr := e.config.tires.initial_tire_temp
    tire_wear := 0
    launch_control_active := e.config.launch_control.enabled
    launch_completed := false
    boost_pressure := 0
    boost_active_time := 0
    drs_active := false
    drs_deployment := 0
    is_shifting := false
    shift_time_remaining := 0
    current_fuel_kg := if e.config.fuel.enabled then e.config.fuel.initial_fuel_kg else 0
    brake_temp_front := if e.config.brakes.enabled then e.config.brakes.initial_brake_temp else 100
    brake_temp_rear := if e.config.brakes.enabled then e.config.brakes.initial_brake_temp else 100
    battery_soc := if e.config.hybrid.enable_battery_soc then e.config.hybrid.initial_battery_soc else 1
    tc_intervention := 0
    shift_velocities := calculate_shift_velocities e.vehicle e.config.gearbox }

/-- `ConfigurablePhysicsEngine.__init__`: stores the three inputs, computes the
air density once, and calls `_initialize_state`.  The Python constructor
performs no validation of the vehicle specification. -/
def mkEngine (m : MathPrims) (vehicle : Vehicle) (environment : EnvironmentConditions)
    (config : PhysicsConfig) : Engine :=
  initialize_state
    { vehicle := vehicle
      environment := environment
      config := config
      air_density := calculate_air_density m environment config.aerodynamics
      tire_temp_fl := 0, tire_temp_fr := 0, tire_temp_rl := 0, tire_temp_rr := 0
      tire_wear := 0
      launch_control_active := false, launch_completed := false
      boost_pressure := 0, boost_active_time := 0
      drs_active := false, drs_deployment := 0
      is_shifting := false, shift_time_remaining := 0
      current_fuel_kg := 0
      brake_temp_front := 0, brake_temp_rear := 0
      battery_soc := 0, tc_intervention := 0
      shift_velocities := [] }

/-- `ConfigurablePhysicsEngine.get_current_mass`. -/
def get_current_mass (e : Engine) : ℚ :=
  if e.config.fuel.enabled ∧ e.config.fuel.fuel_weight_affects_performance then
    e.vehicle.mass + e.current_fuel_kg
  else e.vehicle.mass

/-- The inline average `(fl + fr + rl + rr) / 4` used by the tire model. -/
def avg_tire_temp (e : Engine) : ℚ :=
  (e.tire_temp_fl + e.tire_temp_fr + e.tire_temp_rl + e.tire_temp_rr) / 4

/-- `ConfigurablePhysicsEngine.update_tire_temperature`. -/
def update_tire_temperature (e : Engine) (acceleration velocity_ms dt : ℚ) : Engine :=
  if ¬e.config.enable_all_systems then e
  else
    let avg_temp := avg_tire_temp e
    let avg_temp :=
      if 2 < |acceleration| then
        let heating_rate := (|acceleration| - 2) * e.config.tires.heating_from_acceleration
        let heating_rate :=
          if 0.3 < e.tire_wear then heating_rate * e.config.tires.wear_heating_multiplier
          else heating_rate
        avg_temp + heating_rate * dt
      else avg_temp
    let speed_heating := (velocity_ms / 100) * e.config.tires.heating_from_speed
    let avg_temp := avg_temp + speed_heating * dt
    let temp_diff := avg_temp - e.environment.temperature_celsius
    let cooling := temp_diff * e.config.tires.cooling_rate
    let avg_temp := avg_temp - cooling * dt
    let avg_temp := max e.environment.temperature_celsius
      (min e.config.tires.max_tire_temp avg_temp)
    { e with tire_temp_fl := avg_temp, tire_temp_fr := avg_temp,
             tire_temp_rl := avg_temp, tire_temp_rr := avg_temp }

/-- `ConfigurablePhysicsEngine._get_weather_grip_factor` (the `dict.get` with
default `1.0`). -/
def weather_grip_factor (w : WeatherConfig) : ℚ :=
  if w.track_condition = "dry" then w.dry_grip_multiplier
  else if w.track_condition = "damp" then w.damp_grip_multiplier
  else if w.track_condition = "wet" then w.wet_grip_multiplier
  else if w.track_condition = "snow" then w.snow_grip_multiplier
  else if w.track_condition = "ice" then w.ice_grip_multiplier
  else 1

/-- `ConfigurablePhysicsEngine.get_tire_grip_factor`. -/
def get_tire_grip_factor (e : Engine) : ℚ :=
  let avg_temp := avg_tire_temp e
  let temp_diff := |avg_temp - e.config.tires.optimal_tire_temp|
  let grip :=
    if temp_diff < e.config.tires.optimal_temp_window then 1
    else if temp_diff < 20 then
      1 - (temp_diff - e.config.tires.optimal_temp_window) * 0.015
    else
      let max_penalty :=
        if avg_temp < e.config.tires.optimal_tire_temp then e.config.tires.cold_tire_penalty
        else e.config.tires.hot_tire_penalty
      max (1 - max_penalty) (1 - temp_diff * 0.02)
  let wear_factor := 1 - e.tire_wear * e.config.tires.max_wear_grip_loss
  grip * wear_factor * weather_grip_factor e.config.weather

/-- `ConfigurablePhysicsEngine.calculate_weight_transfer`. -/
def calculate_weight_transfer (e : Engine) (acceleration : ℚ) : ℚ :=
  if ¬e.config.enable_all_systems then 0.6
  else
    let base_rear := 1 - e.config.weight_transfer.base_front_weight
    let accel_g := acceleration / GRAVITY
    let transfer := accel_g * e.config.weight_transfer.transfer_coefficient
    let rear_weight := base_rear + transfer
    max e.config.weight_transfer.min_rear_weight
      (min e.config.weight_transfer.max_rear_weight rear_weight)

/-- `ConfigurablePhysicsEngine.calculate_max_traction_force`. -/
def calculate_max_traction_force (e : Engine) (velocity_ms acceleration : ℚ) : ℚ :=
  let grip_factor := get_tire_grip_factor e
  let rear_weight_proportion := calculate_weight_transfer e acceleration
  let current_mass := get_current_mass e
  let driven_weight := current_mass * rear_weight_proportion * GRAVITY
  let base_mu := e.config.tires.base_friction_coefficient
  let speed_factor :=
    if e.config.tires.hydroplaning_speed < velocity_ms then
      1 - e.config.tires.speed_grip_reduction
    else 1
  let effective_mu := base_mu * grip_factor * speed_factor
  let max_traction := effective_mu * driven_weight
  if e.config.traction_control.enabled then
    max_traction * (1 - e.tc_intervention * e.config.traction_control.intervention_aggression)
  else max_traction

/-- `ConfigurablePhysicsEngine.simulate_launch_control`; returns the updated
engine and the `(active, rpm)` pair.  Note the guard reads only
`config.launch_control.enabled` and `launch_completed` — it never reads the
`launch_control_active` flag.  `m.sin` models `math.sin`. -/
def simulate_launch_control (m : MathPrims) (e : Engine) (velocity_ms dt : ℚ) :
    Engine × Bool × ℚ :=
  if ¬e.config.launch_control.enabled ∨ e.launch_completed then (e, false, 0)
  else if e.config.launch_control.completion_speed < velocity_ms then
    ({ e with launch_completed := true, launch_control_active := false }, false, 0)
  else
    let target_rpm := e.vehicle.redline_rpm * e.config.launch_control.rpm_target_percent
    let rpm_variation := m.sin (dt * 50) * e.config.launch_control.rpm_variation
    (e, true, target_rpm + rpm_variation)

/-- `ConfigurablePhysicsEngine.update_turbo_boost`.  (The `rpm_factor` division
is by `redline_rpm - min_rpm_for_boost`; a zero denominator would raise
`ZeroDivisionError` in Python and is modelled by `ℚ` division, giving `0`.) -/
def update_turbo_boost (e : Engine) (rpm throttle dt : ℚ) : Engine :=
  if ¬e.config.turbo.enabled then { e with boost_pressure := 0 }
  else
    let target_boost :=
      if rpm < e.config.turbo.min_rpm_for_boost ∨ e.config.turbo.max_rpm_for_boost < rpm then 0
      else if throttle < e.config.turbo.throttle_threshold then 0
      else
        let rpm_factor := (rpm - e.config.turbo.min_rpm_for_boost) /
          (e.vehicle.redline_rpm - e.config.turbo.min_rpm_for_boost)
        rpm_factor * throttle * e.config.turbo.max_boost_pressure
    let rate_e : ℚ × Engine :=
      if e.boost_pressure < target_boost then
        (e.config.turbo.spool_rate, { e with boost_active_time := e.boost_active_time + dt })
      else (e.config.turbo.boost_decay_rate, e)
    let rate := rate_e.1
    let e := rate_e.2
    let boost_diff := target_boost - e.boost_pressure
    let bp := e.boost_pressure + boost_diff * rate * dt
    { e with boost_pressure := max 0 (min e.config.turbo.max_boost_pressure bp) }

/-- `ConfigurablePhysicsEngine.get_boost_multiplier`. -/
def get_boost_multiplier (e : Engine) : ℚ :=
  if ¬e.config.turbo.enabled then 1
  else 1 + e.boost_pressure * e.config.turbo.power_multiplier_per_bar

/-- `ConfigurablePhysicsEngine.update_drs`. -/
def update_drs (e : Engine) (velocity_ms dt : ℚ) : Engine :=
  if ¬e.config.drs.enabled then { e with drs_active := false, drs_deployment := 0 }
  else
    let velocity_kmh := velocity_ms * 3.6
    let should_activate := e.config.drs.min_activation_speed ≤ velocity_kmh
    let active :=
      if should_activate ∧ ¬e.drs_active then true
      else if ¬should_activate ∧ e.drs_active then false
      else e.drs_active
    let deployment :=
      if active then min 1 (e.drs_deployment + dt / e.config.drs.activation_delay)
      else max 0 (e.drs_deployment - dt / e.config.drs.deactivation_delay)
    { e with drs_active := active, drs_deployment := deployment }

/-- `ConfigurablePhysicsEngine.get_effective_drag_coefficient`. -/
def get_effective_drag_coefficient (e : Engine) : ℚ :=
  let base_cd := e.vehicle.drag_coefficient
  if e.config.drs.enabled ∧ 0 < e.drs_deployment then
    base_cd * (1 - e.config.drs.drag_reduction * e.drs_deployment)
  else base_cd * e.config.aerodynamics.drag_multiplier

/-- `ConfigurablePhysicsEngine.update_fuel`. -/
def update_fuel (e : Engine) (rpm throttle dt : ℚ) : Engine :=
  if ¬e.config.fuel.enabled then e
  else
    let rpm_factor := rpm / e.vehicle.redline_rpm
    let rate_per_hour :=
      if 0.9 < throttle then e.config.fuel.consumption_rate_full_throttle
      else if 0.3 < throttle then e.config.fuel.consumption_rate_cruise
      else e.config.fuel.consumption_rate_idle
    let rate_per_hour := rate_per_hour * (0.5 + 0.5 * rpm_factor)
    let rate_per_second := rate_per_hour / 3600
    let fuel := e.current_fuel_kg - rate_per_second * dt
    { e with current_fuel_kg := max 0 fuel }

/-- `ConfigurablePhysicsEngine.update_battery` (defined by the engine but never
called from `simulate_step` or `run_simulation`). -/
def update_battery (e : Engine) (power_kw dt : ℚ) : Engine :=
  if ¬e.config.hybrid.enable_battery_soc then e
  else
    let energy_used_kwh := (power_kw / 1000) * (dt / 3600)
    let soc_change := energy_used_kwh / e.config.hybrid.battery_capacity_kwh
    let soc := e.battery_soc - soc_change
    { e with battery_soc := max e.config.hybrid.min_battery_reserve (min 1 soc) }

/-- The interior scan of `interpolate_torque`: the first adjacent pair
`(p, q)` with `p.rpm ≤ rpm ≤ q.rpm` interpolates linearly; falling through the
loop returns the fallback `curve[-1].torque`. -/
def interp_scan (rpm : ℚ) (fallback : ℚ) : List TorquePoint → ℚ
  | p :: q :: rest =>
    if p.rpm ≤ rpm ∧ rpm ≤ q.rpm then
      p.torque + ((rpm - p.rpm) / (q.rpm - p.rpm)) * (q.torque - p.torque)
    else interp_scan rpm fallback (q :: rest)
  | _ => fallback

/-- `ConfigurablePhysicsEngine.interpolate_torque`.  (An empty curve raises
`IndexError` in Python; it is modelled as `0` and never reached by an engine
whose curve is non-empty.) -/
def interpolate_torque (curve : List TorquePoint) (rpm : ℚ) : ℚ :=
  match curve with
  | [] => 0
  | p0 :: _ =>
    let last := curve.getLast?.getD p0
    if rpm ≤ p0.rpm then p0.torque
    else if last.rpm ≤ rpm then last.torque * 0.95
    else interp_scan rpm last.torque curve

/-- `ConfigurablePhysicsEngine.calculate_electric_torque`.  The Python guard
`if not self.vehicle.electric_torque_nm` is falsy for both `None` and `0.0`;
likewise `electric_max_speed_kmh or 200` yields `200` for `None` and `0.0`.
`m.pow15` models `x ** 1.5`. -/
def calculate_electric_torque (m : MathPrims) (e : Engine) (velocity_ms : ℚ) : ℚ :=
  let et := (e.vehicle.electric_torque_nm).getD 0
  if et = 0 then 0
  else
    let velocity_kmh := velocity_ms * 3.6
    let max_speed :=
      let ms := (e.vehicle.electric_max_speed_kmh).getD 0
      if ms = 0 then 200 else ms
    if max_speed ≤ velocity_kmh then 0
    else
      let taper_start := max_speed * 0.5
      let torque :=
        if velocity_kmh ≤ taper_start then et
        else et * m.pow15 ((max_speed - velocity_kmh) / (max_speed - taper_start))
      let torque :=
        if e.config.hybrid.enable_battery_soc then
          if e.battery_soc < e.config.hybrid.min_battery_reserve then 0
          else if e.battery_soc < 0.3 then
            torque * ((e.battery_soc - e.config.hybrid.min_battery_reserve) /
              (0.3 - e.config.hybrid.min_battery_reserve))
          else torque
        else torque
      torque * e.config.hybrid.motor_efficiency

/-- `ConfigurablePhysicsEngine.calculate_rpm_from_velocity`. -/
def calculate_rpm_from_velocity (e : Engine) (velocity_ms : ℚ) (gear : ℤ) : ℚ :=
  if gear < 1 ∨ (e.vehicle.gear_ratios.length : ℤ) < gear then e.vehicle.idle_rpm
  else if velocity_ms < 0.01 then e.vehicle.idle_rpm
  else
    let grat := pyIdx e.vehicle.gear_ratios (gear - 1)
    let trat := grat * e.vehicle.final_drive
    let rpm := (velocity_ms * 60 * trat) / (2 * pi_float * e.vehicle.tire_radius)
    let rpm :=
      if e.is_shifting then
        rpm * (1 + (e.shift_time_remaining / e.config.gearbox.shift_duration) *
          e.config.gearbox.clutch_slip)
      else rpm
    max e.vehicle.idle_rpm rpm

/-- `ConfigurablePhysicsEngine.should_shift_up`. -/
def should_shift_up (e : Engine) (_rpm : ℚ) (gear : ℤ) (velocity_ms : ℚ) : Bool :=
  if (e.vehicle.gear_ratios.length : ℤ) ≤ gear ∨ e.is_shifting then false
  else
    let shift_velocity := pyIdx e.shift_velocities (gear - 1)
    if shift_velocity ≤ velocity_ms then
      let next_gear := gear + 1
      let next_rpm := calculate_rpm_from_velocity e velocity_ms next_gear
      let min_rpm := e.vehicle.redline_rpm * e.config.gearbox.min_rpm_after_shift
      decide (min_rpm ≤ next_rpm)
    else false

/-- `ConfigurablePhysicsEngine.select_gear`; returns the updated engine (the
shift state machine is started here) and the selected gear. -/
def select_gear (e : Engine) (velocity_ms : ℚ) (current_gear : ℤ) (current_rpm : ℚ) :
    Engine × ℤ :=
  if velocity_ms < 1 then (e, 1)
  else if should_shift_up e current_rpm current_gear velocity_ms then
    ({ e with is_shifting := true,
              shift_time_remaining := e.config.gearbox.shift_duration },
     min (current_gear + 1) (e.vehicle.gear_ratios.length : ℤ))
  else (e, current_gear)

/-- `ConfigurablePhysicsEngine.calculate_wheel_torque`. -/
def calculate_wheel_torque (m : MathPrims) (e : Engine) (rpm : ℚ) (gear : ℤ)
    (velocity_ms : ℚ) : ℚ :=
  if gear < 1 ∨ (e.vehicle.gear_ratios.length : ℤ) < gear then 0
  else
    let engine_torque := interpolate_torque e.vehicle.torque_curve rpm
    let engine_torque := engine_torque * get_boost_multiplier e
    let electric_torque := calculate_electric_torque m e velocity_ms
    let combined_torque := engine_torque + electric_torque
    let grat := pyIdx e.vehicle.gear_ratios (gear - 1)
    let trat := grat * e.vehicle.final_drive
    let efficiency := e.vehicle.transmission_efficiency
    let efficiency :=
      if e.is_shifting then efficiency * (1 - e.config.gearbox.shift_power_loss)
      else efficiency
    combined_torque * trat * efficiency

/-- `ConfigurablePhysicsEngine.calculate_forces`: returns
`(drive_force, drag_force, rolling_resistance)`. -/
def calculate_forces (m : MathPrims) (e : Engine) (velocity_ms : ℚ) (gear : ℤ)
    (rpm acceleration : ℚ) : ℚ × ℚ × ℚ :=
  let wheel_torque := calculate_wheel_torque m e rpm gear velocity_ms
  let drive_force := wheel_torque / e.vehicle.tire_radius
  let max_traction := calculate_max_traction_force e velocity_ms acceleration
  let drive_force := min drive_force max_traction
  let effective_cd := get_effective_drag_coefficient e
  let drag_force := 0.5 * e.air_density * effective_cd * e.vehicle.frontal_area *
    velocity_ms ^ 2
  let rolling_resistance := e.vehicle.rolling_resistance_coef * get_current_mass e * GRAVITY
  (drive_force, drag_force, rolling_resistance)

/-- The shift-timer advance at the top of `simulate_step` (source lines
510–514). -/
def shift_timer_step (e : Engine) (dt : ℚ) : Engine :=
  if e.is_shifting then
    let remaining := e.shift_time_remaining - dt
    if remaining ≤ 0 then { e with is_shifting := false, shift_time_remaining := 0 }
    else { e with shift_time_remaining := remaining }
  else e

/-- Gear/RPM resolution of `simulate_step` (source lines 510–527): advance the
shift timer, run launch control (which can force gear 1 and the launch RPM),
otherwise derive RPM from velocity and run gear selection. -/
def resolve_gear_rpm (m : MathPrims) (e : Engine) (velocity_ms : ℚ) (gear : ℤ)
    (dt : ℚ) : Engine × ℤ × ℚ :=
  let e := shift_timer_step e dt
  let lc := simulate_launch_control m e velocity_ms dt
  if lc.2.1 then (lc.1, 1, lc.2.2)
  else
    let rpm := calculate_rpm_from_velocity lc.1 velocity_ms gear
    let sg := select_gear lc.1 velocity_ms gear rpm
    if sg.2 ≠ gear then (sg.1, sg.2, calculate_rpm_from_velocity sg.1 velocity_ms sg.2)
    else (sg.1, gear, rpm)

/-- The prelude of `simulate_step` (source lines 509–532): resolve gear and
RPM, then update the turbo, DRS, and fuel subsystems (in source order, with
full throttle `1.0`).  Returns the updated engine, the resolved gear, and the
resolved RPM. -/
def step_systems (m : MathPrims) (e : Engine) (velocity_ms : ℚ) (gear : ℤ) (dt : ℚ) :
    Engine × ℤ × ℚ :=
  let r := resolve_gear_rpm m e velocity_ms gear dt
  let e := update_turbo_boost r.1 r.2.2 1 dt
  let e := update_drs e velocity_ms dt
  let e := update_fuel e r.2.2 1 dt
  (e, r.2.1, r.2.2)

/-- `ConfigurablePhysicsEngine.simulate_step`: returns the updated engine and
the tuple `(new_velocity, acceleration, gear, rpm)` returned by the source. -/
def simulate_step (m : MathPrims) (e : Engine) (velocity_ms : ℚ) (gear : ℤ) (dt : ℚ) :
    Engine × ℚ × ℚ × ℤ × ℚ :=
  let sys := step_systems m e velocity_ms gear dt
  let e := sys.1
  let gear := sys.2.1
  let rpm := sys.2.2
  let f1 := calculate_forces m e velocity_ms gear rpm 0
  let current_mass := get_current_mass e
  let net_force := f1.1 - f1.2.1 - f1.2.2
  let acceleration := net_force / current_mass
  let f2 := calculate_forces m e velocity_ms gear rpm acceleration
  let net_force := f2.1 - f2.2.1 - f2.2.2
  let acceleration := net_force / current_mass
  let e := update_tire_temperature e acceleration velocity_ms dt
  let e := { e with tire_wear := e.tire_wear + e.config.tires.wear_rate * dt }
  let new_velocity := velocity_ms + acceleration * dt
  let new_velocity := max 0 new_velocity
  (e, new_velocity, acceleration, gear, rpm)

/-- The loop-carried state of `run_simulation`. -/
structure RunState where
  e : Engine
  time : ℚ
  dist : ℚ
  vel : ℚ
  gear : ℤ

/-- One iteration of the `run_simulation` loop body (source lines 577–604):
step, trapezoidal distance update, power computation, snapshot, time
increment. -/
def runIter (m : MathPrims) (dt : ℚ) (s : RunState) : RunState × TimeSnapshot :=
  let st := simulate_step m s.e s.vel s.gear dt
  let e := st.1
  let new_velocity := st.2.1
  let acceleration := st.2.2.1
  let new_gear := st.2.2.2.1
  let rpm := st.2.2.2.2
  let avg_velocity := (s.vel + new_velocity) / 2
  let dist := s.dist + avg_velocity * dt
  let f := calculate_forces m e new_velocity new_gear rpm acceleration
  let power_kw := f.1 * new_velocity / 1000
  let snap : TimeSnapshot :=
    { time := pyRound s.time 3
      distance := pyRound dist 2
      velocity := pyRound new_velocity 2
      acceleration := pyRound acceleration 3
      gear := new_gear
      rpm := pyRound rpm 0
      power_kw := pyRound power_kw 1 }
  (⟨e, s.time + dt, dist, new_velocity, new_gear⟩, snap)

/-- The stop test evaluated after each iteration (source lines 607–611): fuel
exhaustion, or target distance reached. -/
def run_break (td : Option ℚ) (s : RunState) : Bool :=
  (s.e.config.fuel.enabled && decide (s.e.current_fuel_kg ≤ 0)) ||
    td.elim false fun t => decide (t ≤ s.dist)

/-- The `while time <= max_time` loop of `run_simulation`, with an explicit
iteration bound `n` (chosen large enough that the bound is never the reason
the loop stops when `dt > 0`). -/
def runSimAux (m : MathPrims) (dt max_time : ℚ) (td : Option ℚ) :
    ℕ → RunState → List TimeSnapshot
  | 0, _ => []
  | n + 1, s =>
    if s.time ≤ max_time then
      let r := runIter m dt s
      if run_break td r.1 then [r.2]
      else r.2 :: runSimAux m dt max_time td n r.1
    else []

/-- The scan of `_get_gear_for_velocity` over gear numbers `g, g+1, …` (with
`n` gears left to try); falling through returns `len(gear_ratios)`. -/
def gear_window_scan (e : Engine) (velocity_ms : ℚ) : ℕ → ℤ → ℤ
  | 0, _ => (e.vehicle.gear_ratios.length : ℤ)
  | n + 1, g =>
    let rpm := calculate_rpm_from_velocity e velocity_ms g
    if e.vehicle.redline_rpm * 0.50 ≤ rpm ∧ rpm ≤ e.vehicle.redline_rpm * 0.90 then g
    else gear_window_scan e velocity_ms n (g + 1)

/-- `ConfigurablePhysicsEngine._get_gear_for_velocity`. -/
def get_gear_for_velocity (e : Engine) (velocity_ms : ℚ) : ℤ :=
  if velocity_ms < 1 then 1
  else gear_window_scan e velocity_ms e.vehicle.gear_ratios.length 1

/-- `ConfigurablePhysicsEngine.run_simulation`.  The initial gear is computed
before the state reset, exactly as in the source; the write
`launch_control_active := false` for rolling starts is reproduced faithfully
(the flag is dead: no other code reads it).  A non-positive `timestep` makes
the Python loop diverge and is modelled by the empty snapshot list. -/
def run_simulation (m : MathPrims) (e : Engine) (timestep max_time : ℚ)
    (target_distance : Option ℚ) (start_velocity : ℚ) : List TimeSnapshot :=
  let gear : ℤ := if start_velocity = 0 then 1 else get_gear_for_velocity e start_velocity
  let e := initialize_state e
  let e := if 0 < start_velocity then { e with launch_control_active := false } else e
  let n : ℕ := if 0 < timestep then (⌊max_time / timestep⌋).toNat + 2 else 0
  runSimAux m timestep max_time target_distance n ⟨e, 0, 0, start_velocity, gear⟩

/-! ## Concrete instances used for evaluations -/

/-- Concrete math primitives for evaluations: `exp` is only ever applied to
`-0/8400 = 0` (altitude 0), where `exp 0 = 1` exactly; `sin` and `pow15` are
irrelevant on the evaluated paths and set to `0`. -/
def m0 : MathPrims := ⟨fun _ => 0, fun _ => 1, fun _ => 0⟩

/-- A valid single-gear vehicle whose engine produces no torque (a flat zero
torque curve with 2 points). -/
def vZeroTorque : Vehicle :=
  { mass := 1000, drag_coefficient := 1, frontal_area := 2, final_drive := 3.36,
    transmission_efficiency := 0.95, gear_ratios := [3],
    electric_torque_nm := none, electric_max_speed_kmh := none,
    idle_rpm := 1200, redline_rpm := 8500,
    torque_curve := [⟨1000, 0⟩, ⟨9000, 0⟩],
    tire_radius := 0.358, rolling_resistance_coef := 0.01 }

/-- A two-gear zero-torque vehicle with high rolling resistance. -/
def vTwoGear : Vehicle :=
  { vZeroTorque with gear_ratios := [3, 2], rolling_resistance_coef := 0.2 }

/-- The scenario vehicle of the specification: redline 8500 RPM, idle 1200 RPM,
single gear ratio 3.0, final drive 3.36, tire radius 0.358 m. -/
def vScenario : Vehicle :=
  { mass := 1400, drag_coefficient := 0.35, frontal_area := 2,
    final_drive := 3.36, transmission_efficiency := 0.95, gear_ratios := [3],
    electric_torque_nm := none, electric_max_speed_kmh := none,
    idle_rpm := 1200, redline_rpm := 8500,
    torque_curve := [⟨1000, 400⟩, ⟨9000, 400⟩],
    tire_radius := 0.358, rolling_resistance_coef := 0.01 }

/-- A degenerate specification: a 1-point torque curve and an empty gear
sequence. -/
def vDegenerate : Vehicle :=
  { mass := 1000, drag_coefficient := 1, frontal_area := 2, final_drive := 3,
    transmission_efficiency := 0.95, gear_ratios := [],
    electric_torque_nm := none, electric_max_speed_kmh := none,
    idle_rpm := 1000, redline_rpm := 8000,
    torque_curve := [⟨3000, 500⟩],
    tire_radius := 0.3, rolling_resistance_coef := 0.01 }

/-- Default environment (20 °C, sea level, 101.325 kPa). -/
def env0 : EnvironmentConditions := {}

/-- A configuration with launch control, turbo, and DRS disabled (all other
fields at their defaults). -/
def cfgPlain : PhysicsConfig :=
  { launch_control := { enabled := false }, turbo := { enabled := false },
    drs := { enabled := false } }

/-- A configuration with turbo and DRS disabled but launch control enabled at
its defaults (target 65 % of redline, completion speed 5 m/s). -/
def cfgLaunch : PhysicsConfig :=
  { turbo := { enabled := false }, drs := { enabled := false } }

/-- `cfgPlain` with tires starting at the optimal temperature and a wet
track. -/
def cfgWet : PhysicsConfig :=
  { cfgPlain with tires := { initial_tire_temp := 85 },
                  weather := { track_condition := "wet" } }

/-- The zero-torque single-gear engine. -/
def eZeroTorque : Engine := mkEngine m0 vZeroTorque env0 cfgPlain

/-- The two-gear zero-torque engine (launch control disabled). -/
def eTwoGear : Engine := mkEngine m0 vTwoGear env0 cfgPlain

/-- The two-gear zero-torque engine with launch control enabled. -/
def eLaunch : Engine := mkEngine m0 vTwoGear env0 cfgLaunch

/-- The engine built from the degenerate specification. -/
def eDegenerate : Engine := mkEngine m0 vDegenerate env0 cfgPlain

/-- Engine at optimal tire temperature, zero wear, on a wet track. -/
def eWet : Engine := mkEngine m0 vZeroTorque env0 cfgWet

/-- A hybrid engine state with positive boost pressure and an electric motor:
turbo enabled (0.12 power multiplier per bar), boost pressure 1 bar, electric
torque 100 Nm with max-assist speed 200 km/h, battery tracking disabled. -/
def eHybridBoost : Engine :=
  { vehicle :=
      { mass := 1400, drag_coefficient := 0.35, frontal_area := 2,
        final_drive := 3.36, transmission_efficiency := 0.95, gear_ratios := [3],
        electric_torque_nm := some 100, electric_max_speed_kmh := some 200,
        idle_rpm := 1200, redline_rpm := 8500,
        torque_curve := [⟨1000, 500⟩, ⟨9000, 500⟩],
        tire_radius := 0.358, rolling_resistance_coef := 0.01 }
    environment := env0
    config := {}
    air_density := 1.2
    tire_temp_fl := 85, tire_temp_fr := 85, tire_temp_rl := 85, tire_temp_rr := 85
    tire_wear := 0
    launch_control_active := false, launch_completed := true
    boost_pressure := 1, boost_active_time := 1
    drs_active := false, drs_deployment := 0
    is_shifting := false, shift_time_remaining := 0
    current_fuel_kg := 0
    brake_temp_front := 100, brake_temp_rear := 100
    battery_soc := 1, tc_intervention := 0
    shift_velocities := [] }

/-- A constructible but meaningless configuration: DRS enabled with a
negative `activation_delay` (the configuration schema imposes no range
constraint on the field).  Launch control and turbo are off. -/
def cfgBadDrs : PhysicsConfig :=
  { launch_control := { enabled := false }, turbo := { enabled := false },
    drs := { enabled := true, activation_delay := -(1/2) } }

/-- The zero-torque engine under the negative-activation-delay
configuration. -/
def eBadDrs : Engine := mkEngine m0 vZeroTorque env0 cfgBadDrs

/-- The all-zero snapshot, used as the `getD` default in evaluations. -/
def snap0 : TimeSnapshot :=
  { time := 0, distance := 0, velocity := 0, acceleration := 0, gear := 0,
    rpm := 0, power_kw := 0 }

/-! ## Field-preservation helper lemmas

Each subsystem update touches only its own state fields; these record the
fields it leaves alone (and are used for the invariant and frame claims). -/

section Preservation

variable (e : Engine) (rpm throttle velocity_ms acceleration dt : ℚ)

@[simp] lemma update_turbo_boost_config :
    (update_turbo_boost e rpm throttle dt).config = e.config := by
  simp only [update_turbo_boost]; split_ifs <;> rfl

@[simp] lemma update_turbo_boost_battery_soc :
    (update_turbo_boost e rpm throttle dt).battery_soc = e.battery_soc := by
  simp only [update_turbo_boost]; split_ifs <;> rfl

@[simp] lemma update_turbo_boost_drs_deployment :
    (update_turbo_boost e rpm throttle dt).drs_deployment = e.drs_deployment := by
  simp only [update_turbo_boost]; split_ifs <;> rfl

@[simp] lemma update_turbo_boost_current_fuel_kg :
    (update_turbo_boost e rpm throttle dt).current_fuel_kg = e.current_fuel_kg := by
  simp only [update_turbo_boost]; split_ifs <;> rfl

@[simp] lemma update_drs_config :
    (update_drs e velocity_ms dt).config = e.config := by
  simp only [update_drs]; split_ifs <;> rfl

@[simp] lemma update_drs_battery_soc :
    (update_drs e velocity_ms dt).battery_soc = e.battery_soc := by
  simp only [update_drs]; split_ifs <;> rfl

@[simp] lemma update_drs_boost_pressure :
    (update_drs e velocity_ms dt).boost_pressure = e.boost_pressure := by
  simp only [update_drs]; split_ifs <;> rfl

@[simp] lemma update_drs_current_fuel_kg :
    (update_drs e velocity_ms dt).current_fuel_kg = e.current_fuel_kg := by
  simp only [update_drs]; split_ifs <;> rfl

@[simp] lemma update_fuel_config :
    (update_fuel e rpm throttle dt).config = e.config := by
  simp only [update_fuel]; split_ifs <;> rfl

@[simp] lemma update_fuel_battery_soc :
    (update_fuel e rpm throttle dt).battery_soc = e.battery_soc := by
  simp only [update_fuel]; split_ifs <;> rfl

@[simp] lemma update_fuel_boost_pressure :
    (update_fuel e rpm throttle dt).boost_pressure = e.boost_pressure := by
  simp only [update_fuel]; split_ifs <;> rfl

@[simp] lemma update_fuel_drs_deployment :
    (update_fuel e rpm throttle dt).drs_deployment = e.drs_deployment := by
  simp only [update_fuel]; split_ifs <;> rfl

@[simp] lemma update_tire_temperature_config :
    (update_tire_temperature e acceleration velocity_ms dt).config = e.config := by
  simp only [update_tire_temperature]; split_ifs <;> rfl

@[simp] lemma update_tire_temperature_battery_soc :
    (update_tire_temperature e acceleration velocity_ms dt).battery_soc = e.battery_soc := by
  simp only [update_tire_temperature]; split_ifs <;> rfl

@[simp] lemma update_tire_temperature_boost_pressure :
    (update_tire_temperature e acceleration velocity_ms dt).boost_pressure =
      e.boost_pressure := by
  simp only [update_tire_temperature]; split_ifs <;> rfl

@[simp] lemma update_tire_temperature_drs_deployment :
    (update_tire_temperature e acceleration velocity_ms dt).drs_deployment =
      e.drs_deployment := by
  simp only [update_tire_temperature]; split_ifs <;> rfl

@[simp] lemma update_tire_temperature_current_fuel_kg :
    (update_tire_temperature e acceleration velocity_ms dt).current_fuel_kg =
      e.current_fuel_kg := by
  simp only [update_tire_temperature]; split_ifs <;> rfl

@[simp] lemma shift_timer_step_config : (shift_timer_step e dt).config = e.config := by
  simp only [shift_timer_step]; split_ifs <;> rfl

@[simp] lemma shift_timer_step_battery_soc :
    (shift_timer_step e dt).battery_soc = e.battery_soc := by
  simp only [shift_timer_step]; split_ifs <;> rfl

@[simp] lemma shift_timer_step_boost_pressure :
    (shift_timer_step e dt).boost_pressure = e.boost_pressure := by
  simp only [shift_timer_step]; split_ifs <;> rfl

@[simp] lemma shift_timer_step_drs_deployment :
    (shift_timer_step e dt).drs_deployment = e.drs_deployment := by
  simp only [shift_timer_step]; split_ifs <;> rfl

@[simp] lemma shift_timer_step_current_fuel_kg :
    (shift_timer_step e dt).current_fuel_kg = e.current_fuel_kg := by
  simp only [shift_timer_step]; split_ifs <;> rfl

@[simp] lemma shift_timer_step_launch_completed :
    (shift_timer_step e dt).launch_completed = e.launch_completed := by
  simp only [shift_timer_step]; split_ifs <;> rfl

end Preservation

section PreservationLC

variable (m : MathPrims) (e : Engine) (velocity_ms dt : ℚ) (gear : ℤ) (rpm : ℚ)

@[simp] lemma simulate_launch_control_config :
    (simulate_launch_control m e velocity_ms dt).1.config = e.config := by
  simp only [simulate_launch_control]; split_ifs <;> rfl

@[simp] lemma simulate_launch_control_battery_soc :
    (simulate_launch_control m e velocity_ms dt).1.battery_soc = e.battery_soc := by
  simp only [simulate_launch_control]; split_ifs <;> rfl

@[simp] lemma simulate_launch_control_boost_pressure :
    (simulate_launch_control m e velocity_ms dt).1.boost_pressure = e.boost_pressure := by
  simp only [simulate_launch_control]; split_ifs <;> rfl

@[simp] lemma simulate_launch_control_drs_deployment :
    (simulate_launch_control m e velocity_ms dt).1.drs_deployment = e.drs_deployment := by
  simp only [simulate_launch_control]; split_ifs <;> rfl

@[simp] lemma simulate_launch_control_current_fuel_kg :
    (simulate_launch_control m e velocity_ms dt).1.current_fuel_kg = e.current_fuel_kg := by
  simp only [simulate_launch_control]; split_ifs <;> rfl

@[simp] lemma select_gear_config :
    (select_gear e velocity_ms gear rpm).1.config = e.config := by
  simp only [select_gear]; split_ifs <;> rfl

@[simp] lemma select_gear_battery_soc :
    (select_gear e velocity_ms gear rpm).1.battery_soc = e.battery_soc := by
  simp only [select_gear]; split_ifs <;> rfl

@[simp] lemma select_gear_boost_pressure :
    (select_gear e velocity_ms gear rpm).1.boost_pressure = e.boost_pressure := by
  simp only [select_gear]; split_ifs <;> rfl

@[simp] lemma select_gear_drs_deployment :
    (select_gear e velocity_ms gear rpm).1.drs_deployment = e.drs_deployment := by
  simp only [select_gear]; split_ifs <;> rfl

@[simp] lemma select_gear_current_fuel_kg :
    (select_gear e velocity_ms gear rpm).1.current_fuel_kg = e.current_fuel_kg := by
  simp only [select_gear]; split_ifs <;> rfl

@[simp] lemma resolve_gear_rpm_config :
    (resolve_gear_rpm m e velocity_ms gear dt).1.config = e.config := by
  simp only [resolve_gear_rpm]; split_ifs <;> simp

@[simp] lemma resolve_gear_rpm_battery_soc :
    (resolve_gear_rpm m e velocity_ms gear dt).1.battery_soc = e.battery_soc := by
  simp only [resolve_gear_rpm]; split_ifs <;> simp

@[simp] lemma resolve_gear_rpm_boost_pressure :
    (resolve_gear_rpm m e velocity_ms gear dt).1.boost_pressure = e.boost_pressure := by
  simp only [resolve_gear_rpm]; split_ifs <;> simp

@[simp] lemma resolve_gear_rpm_drs_deployment :
    (resolve_gear_rpm m e velocity_ms gear dt).1.drs_deployment = e.drs_deployment := by
  simp only [resolve_gear_rpm]; split_ifs <;> simp

@[simp] lemma resolve_gear_rpm_current_fuel_kg :
    (resolve_gear_rpm m e velocity_ms gear dt).1.current_fuel_kg = e.current_fuel_kg := by
  simp only [resolve_gear_rpm]; split_ifs <;> simp

@[simp] lemma step_systems_config :
    (step_systems m e velocity_ms gear dt).1.config = e.config := by
  unfold step_systems; simp

@[simp] lemma step_systems_battery_soc :
    (step_systems m e velocity_ms gear dt).1.battery_soc = e.battery_soc := by
  unfold step_systems; simp

@[simp] lemma simulate_step_config :
    (simulate_step m e velocity_ms gear dt).1.config = e.config := by
  unfold simulate_step; simp

@[simp] lemma simulate_step_battery_soc :
    (simulate_step m e velocity_ms gear dt).1.battery_soc = e.battery_soc := by
  unfold simulate_step; simp

end PreservationLC

/-! ## Bound lemmas for the clamped subsystem states -/

section Bounds

variable (e : Engine) (rpm throttle velocity_ms dt : ℚ)

lemma update_turbo_boost_bounds (h : 0 ≤ e.config.turbo.max_boost_pressure) :
    0 ≤ (update_turbo_boost e rpm throttle dt).boost_pressure ∧
      (update_turbo_boost e rpm throttle dt).boost_pressure ≤
        e.config.turbo.max_boost_pressure := by
  simp only [update_turbo_boost]
  split_ifs <;> dsimp only <;>
    first
      | exact ⟨le_rfl, h⟩
      | exact ⟨le_max_left _ _, max_le h (min_le_left _ _)⟩

set_option maxHeartbeats 2000000 in
lemma update_drs_bounds (h0 : 0 ≤ e.drs_deployment) (h1 : e.drs_deployment ≤ 1)
    (ha : 0 < e.config.drs.activation_delay)
    (hd : 0 < e.config.drs.deactivation_delay) (hdt : 0 < dt) :
    0 ≤ (update_drs e velocity_ms dt).drs_deployment ∧
      (update_drs e velocity_ms dt).drs_deployment ≤ 1 := by
  simp only [update_drs]
  split_ifs <;> refine ⟨?_, ?_⟩ <;> dsimp only
  all_goals (
    have hka := (div_pos hdt ha).le
    have hkd := (div_pos hdt hd).le
    first
      | linarith
      | (apply le_min <;> linarith)
      | (apply min_le_of_left_le; linarith)
      | (apply le_max_of_le_left; linarith)
      | (apply max_le <;> linarith))

lemma update_fuel_nonneg (h : 0 ≤ e.current_fuel_kg) :
    0 ≤ (update_fuel e rpm throttle dt).current_fuel_kg := by
  simp only [update_fuel]
  split_ifs <;> first | exact h | exact le_max_left _ _

end Bounds

/-- The four state bounds of the claim: DRS deployment in `[0, 1]`, boost
pressure in `[0, max_boost_pressure]`, fuel non-negative, battery SOC at or
above the configured minimum reserve. -/
def StateBounds (e : Engine) : Prop :=
  0 ≤ e.drs_deployment ∧ e.drs_deployment ≤ 1 ∧
  0 ≤ e.boost_pressure ∧ e.boost_pressure ≤ e.config.turbo.max_boost_pressure ∧
  0 ≤ e.current_fuel_kg ∧
  e.config.hybrid.min_battery_reserve ≤ e.battery_soc

instance (e : Engine) : Decidable (StateBounds e) := by
  unfold StateBounds; infer_instance

/-- Validity of a configuration, as documented in the configuration schema:
the DRS deploy/retract delays are positive times, the boost ceiling and the
initial fuel load are non-negative, and the minimum battery reserve does not
exceed the initial (or full) state of charge. -/
def ConfigOK (c : PhysicsConfig) : Prop :=
  0 < c.drs.activation_delay ∧ 0 < c.drs.deactivation_delay ∧
  0 ≤ c.turbo.max_boost_pressure ∧ 0 ≤ c.fuel.initial_fuel_kg ∧
  c.hybrid.min_battery_reserve ≤ c.hybrid.initial_battery_soc ∧
  c.hybrid.min_battery_reserve ≤ 1

instance (c : PhysicsConfig) : Decidable (ConfigOK c) := by
  unfold ConfigOK; infer_instance

section StepFieldRouting

variable (m : MathPrims) (e : Engine) (velocity_ms dt : ℚ) (gear : ℤ)

@[simp] lemma step_systems_boost_pressure :
    (step_systems m e velocity_ms gear dt).1.boost_pressure =
      (update_turbo_boost (resolve_gear_rpm m e velocity_ms gear dt).1
        (resolve_gear_rpm m e velocity_ms gear dt).2.2 1 dt).boost_pressure := by
  unfold step_systems; simp

@[simp] lemma step_systems_drs_deployment :
    (step_systems m e velocity_ms gear dt).1.drs_deployment =
      (update_drs (update_turbo_boost (resolve_gear_rpm m e velocity_ms gear dt).1
        (resolve_gear_rpm m e velocity_ms gear dt).2.2 1 dt) velocity_ms
          dt).drs_deployment := by
  unfold step_systems; simp

@[simp] lemma step_systems_current_fuel_kg :
    (step_systems m e velocity_ms gear dt).1.current_fuel_kg =
      (update_fuel (update_drs (update_turbo_boost
          (resolve_gear_rpm m e velocity_ms gear dt).1
          (resolve_gear_rpm m e velocity_ms gear dt).2.2 1 dt) velocity_ms dt)
        (resolve_gear_rpm m e velocity_ms gear dt).2.2 1 dt).current_fuel_kg := rfl

@[simp] lemma simulate_step_boost_pressure :
    (simulate_step m e velocity_ms gear dt).1.boost_pressure =
      (step_systems m e velocity_ms gear dt).1.boost_pressure := by
  unfold simulate_step; simp

@[simp] lemma simulate_step_drs_deployment :
    (simulate_step m e velocity_ms gear dt).1.drs_deployment =
      (step_systems m e velocity_ms gear dt).1.drs_deployment := by
  unfold simulate_step; simp

@[simp] lemma simulate_step_current_fuel_kg :
    (simulate_step m e velocity_ms gear dt).1.current_fuel_kg =
      (step_systems m e velocity_ms gear dt).1.current_fuel_kg := by
  unfold simulate_step; simp

end StepFieldRouting

/-! ## Claims -/

/-- C10: the step loop never touches the battery state of charge —
`simulate_step` leaves `battery_soc` unchanged for every configuration and
input, and `_initialize_state` sets it to `initial_battery_soc` when battery
tracking is enabled and to `1.0` otherwise (so throughout a run the SOC equals
its initialization value). -/
theorem claim_C10_battery_frame (m : MathPrims) (e : Engine) (velocity_ms : ℚ)
    (gear : ℤ) (dt : ℚ) :
    (simulate_step m e velocity_ms gear dt).1.battery_soc = e.battery_soc ∧
    (initialize_state e).battery_soc =
      (if e.config.hybrid.enable_battery_soc then e.config.hybrid.initial_battery_soc
       else 1) := by
  exact ⟨by simp, rfl⟩

/-- C7: `calculate_rpm_from_velocity` at velocity 0 returns the idle RPM for
every gear (in-range or not); in particular, the scenario vehicle (redline
8500, idle 1200, single gear ratio 3.0, final drive 3.36, tire radius 0.358)
reports exactly 1200 RPM at velocity 0 in gear 1. -/
theorem claim_C7_idle_rpm_at_rest :
    (∀ (e : Engine) (gear : ℤ),
        calculate_rpm_from_velocity e 0 gear = e.vehicle.idle_rpm) ∧
    calculate_rpm_from_velocity (mkEngine m0 vScenario env0 cfgPlain) 0 1 = 1200 := by
  constructor
  · intro e gear
    unfold calculate_rpm_from_velocity
    split_ifs with h1 h2
    · rfl
    · rfl
    all_goals exact absurd (by norm_num : (0 : ℚ) < 0.01) h2
  · exact of_decide_eq_true (by with_unfolding_all rfl)

/-- C1: each `simulate_step` computes forces exactly twice — a first pass with
acceleration 0 giving the provisional acceleration
`(drive − drag − rolling) / mass`, a single recomputation at that provisional
acceleration giving the acceleration `a` used for integration — the returned
velocity is `max 0 (v + a·dt)`, and each run-loop iteration advances distance
by `((v + v') / 2)·dt`; no further correction passes occur. -/
theorem claim_C1_two_pass_integration (m : MathPrims) (e : Engine) (velocity_ms : ℚ)
    (gear : ℤ) (dt : ℚ) :
    (let sys := step_systems m e velocity_ms gear dt
     let mass := get_current_mass sys.1
     let f1 := calculate_forces m sys.1 velocity_ms sys.2.1 sys.2.2 0
     let a1 := (f1.1 - f1.2.1 - f1.2.2) / mass
     let f2 := calculate_forces m sys.1 velocity_ms sys.2.1 sys.2.2 a1
     let a2 := (f2.1 - f2.2.1 - f2.2.2) / mass
     (simulate_step m e velocity_ms gear dt).2.1 = max 0 (velocity_ms + a2 * dt) ∧
       (simulate_step m e velocity_ms gear dt).2.2.1 = a2) ∧
    ∀ s : RunState,
      (runIter m dt s).1.dist =
        s.dist + (s.vel + (simulate_step m s.e s.vel s.gear dt).2.1) / 2 * dt := by
  exact ⟨⟨rfl, rfl⟩, fun s => rfl⟩

/-- C2 counterexample: the claim does not hold for *every* configuration —
with DRS enabled and a (constructible) negative `activation_delay`, the
freshly initialized engine satisfies all four bounds, yet after one
`simulate_step` at 50 m/s (180 km/h, above the 150 km/h activation speed)
with `dt = 1` the DRS deployment fraction is negative:
`min(1, 0 + 1/(-0.5)) = -2`.  The violating state is reachable (it is the
state after the first iteration of a run from 50 m/s). -/
theorem claim_C2_cex :
    StateBounds (initialize_state eBadDrs) ∧
      (simulate_step m0 (initialize_state eBadDrs) 50 1 1).1.drs_deployment < 0 :=
  of_decide_eq_true (by with_unfolding_all rfl)

/-- C2 (amended): for a valid configuration (positive DRS deploy/retract delays,
non-negative boost ceiling and initial fuel, minimum battery reserve below the
initial/full charge) and any timestep `dt > 0`, the four state bounds hold at
state initialization and are preserved by every `simulate_step` — hence they
hold in every reachable state of the step loop: DRS deployment stays in
`[0, 1]`, boost pressure in `[0, max_boost_pressure]`, fuel never negative,
battery SOC never below the configured reserve. -/
theorem claim_C2_state_bounds (m : MathPrims) (e : Engine) (velocity_ms : ℚ)
    (gear : ℤ) (dt : ℚ) (hc : ConfigOK e.config) (hdt : 0 < dt) :
    StateBounds (initialize_state e) ∧
      (StateBounds e → StateBounds (simulate_step m e velocity_ms gear dt).1) := by
  obtain ⟨hc1, hc2, hc3, hc4, hc5, hc6⟩ := hc
  constructor
  · refine ⟨le_rfl, zero_le_one, le_rfl, hc3, ?_, ?_⟩
    · dsimp only [initialize_state]
      split_ifs
      · exact hc4
      · exact le_rfl
    · dsimp only [initialize_state]
      split_ifs
      · exact hc5
      · exact hc6
  · rintro ⟨b1, b2, b3, b4, b5, b6⟩
    have hdep : 0 ≤ (simulate_step m e velocity_ms gear dt).1.drs_deployment ∧
        (simulate_step m e velocity_ms gear dt).1.drs_deployment ≤ 1 := by
      rw [simulate_step_drs_deployment, step_systems_drs_deployment]
      apply update_drs_bounds
      · simpa using b1
      · simpa using b2
      · simpa using hc1
      · simpa using hc2
      · exact hdt
    have hboost : 0 ≤ (simulate_step m e velocity_ms gear dt).1.boost_pressure ∧
        (simulate_step m e velocity_ms gear dt).1.boost_pressure ≤
          e.config.turbo.max_boost_pressure := by
      rw [simulate_step_boost_pressure, step_systems_boost_pressure]
      have hb := update_turbo_boost_bounds
        (resolve_gear_rpm m e velocity_ms gear dt).1
        (resolve_gear_rpm m e velocity_ms gear dt).2.2 1 dt (by simpa using hc3)
      simpa using hb
    have hfuel : 0 ≤ (simulate_step m e velocity_ms gear dt).1.current_fuel_kg := by
      rw [simulate_step_current_fuel_kg, step_systems_current_fuel_kg]
      apply update_fuel_nonneg
      simpa using b5
    have hsoc : (simulate_step m e velocity_ms gear dt).1.config.hybrid.min_battery_reserve ≤
        (simulate_step m e velocity_ms gear dt).1.battery_soc := by
      simpa using b6
    have hcfg : (simulate_step m e velocity_ms gear dt).1.config = e.config := by simp
    refine ⟨hdep.1, hdep.2, hboost.1, ?_, hfuel, hsoc⟩
    rw [hcfg]
    exact hboost.2

/-- Witness for C2 (amended): the bounds hold concretely for the zero-torque
engine with its (valid) configuration and `dt = 1`. -/
theorem claim_C2_state_bounds_witness :
    StateBounds (initialize_state eZeroTorque) ∧
      (StateBounds eZeroTorque → StateBounds (simulate_step m0 eZeroTorque 0 1 1).1) :=
  claim_C2_state_bounds m0 eZeroTorque 0 1 1
    (of_decide_eq_true (by with_unfolding_all rfl))
    (of_decide_eq_true (by with_unfolding_all rfl))

/-! ## Monotonicity of the run's distance sequence (for C3) -/

lemma le_roundHalfEven (x : ℚ) : ⌊x⌋ ≤ roundHalfEven x := by
  unfold roundHalfEven; split_ifs <;> omega

lemma roundHalfEven_le (x : ℚ) : roundHalfEven x ≤ ⌊x⌋ + 1 := by
  unfold roundHalfEven; split_ifs <;> omega

lemma roundHalfEven_mono {x y : ℚ} (h : x ≤ y) : roundHalfEven x ≤ roundHalfEven y := by
  have hfl : ⌊x⌋ ≤ ⌊y⌋ := Int.floor_le_floor h
  rcases eq_or_lt_of_le hfl with heq | hlt
  · unfold roundHalfEven
    rw [← heq]
    have hx : (⌊x⌋ : ℚ) ≤ x := Int.floor_le x
    split_ifs <;> first | omega | linarith
  · calc roundHalfEven x ≤ ⌊x⌋ + 1 := roundHalfEven_le x
      _ ≤ ⌊y⌋ := by omega
      _ ≤ roundHalfEven y := le_roundHalfEven y

lemma pyRound_mono {x y : ℚ} (n : ℕ) (h : x ≤ y) : pyRound x n ≤ pyRound y n := by
  unfold pyRound
  have h10 : (0 : ℚ) < 10 ^ n := by positivity
  apply div_le_div_of_nonneg_right ?_ (le_of_lt h10)
  exact_mod_cast roundHalfEven_mono (mul_le_mul_of_nonneg_right h (le_of_lt h10))

lemma runIter_vel_nonneg (m : MathPrims) (dt : ℚ) (s : RunState) :
    0 ≤ (runIter m dt s).1.vel :=
  le_max_left 0 _

lemma runIter_dist_eq (m : MathPrims) (dt : ℚ) (s : RunState) :
    (runIter m dt s).1.dist = s.dist + (s.vel + (runIter m dt s).1.vel) / 2 * dt := rfl

lemma runIter_snap_dist (m : MathPrims) (dt : ℚ) (s : RunState) :
    (runIter m dt s).2.distance = pyRound (runIter m dt s).1.dist 2 := rfl

lemma runIter_dist_le (m : MathPrims) (dt : ℚ) (s : RunState)
    (hv : 0 ≤ s.vel) (hdt : 0 ≤ dt) : s.dist ≤ (runIter m dt s).1.dist := by
  have h1 : 0 ≤ (runIter m dt s).1.vel := runIter_vel_nonneg m dt s
  have h2 : 0 ≤ (s.vel + (runIter m dt s).1.vel) / 2 * dt :=
    mul_nonneg (by linarith) hdt
  rw [runIter_dist_eq]
  linarith

lemma runSimAux_dist_mono (m : MathPrims) (dt max_time : ℚ) (td : Option ℚ)
    (hdt : 0 ≤ dt) :
    ∀ (n : ℕ) (s : RunState), 0 ≤ s.vel →
      ((runSimAux m dt max_time td n s).map TimeSnapshot.distance).Pairwise (· ≤ ·) ∧
      ∀ x ∈ runSimAux m dt max_time td n s, pyRound s.dist 2 ≤ x.distance := by
  intro n
  induction n with
  | zero => intro s _; simp [runSimAux]
  | succ n ih =>
    intro s hs
    have hstep : pyRound s.dist 2 ≤ (runIter m dt s).2.distance := by
      rw [runIter_snap_dist]
      exact pyRound_mono 2 (runIter_dist_le m dt s hs hdt)
    simp only [runSimAux]
    split_ifs with htime hbreak
    · exact ⟨by simp, by intro x hx; simp only [List.mem_singleton] at hx; rw [hx]; exact hstep⟩
    · obtain ⟨ih1, ih2⟩ := ih (runIter m dt s).1 (runIter_vel_nonneg m dt s)
      have htail : ∀ x ∈ runSimAux m dt max_time td n (runIter m dt s).1,
          (runIter m dt s).2.distance ≤ x.distance := by
        intro x hx
        rw [runIter_snap_dist]
        exact le_trans (pyRound_mono 2 le_rfl) (ih2 x hx)
      constructor
      · rw [List.map_cons]
        refine List.pairwise_cons.mpr ⟨?_, ih1⟩
        intro d hd
        obtain ⟨x, hx, rfl⟩ := List.mem_map.mp hd
        exact htail x hx
      · intro x hx
        rcases List.mem_cons.mp hx with rfl | hx
        · exact hstep
        · exact le_trans hstep (htail x hx)
    · simp

/-- C3 counterexample: a valid single-gear vehicle with a flat zero-torque
curve, rolling from 50 m/s with `dt = 1`, `max_time = 1`: the run returns two
snapshots whose velocities strictly decrease (drag and rolling resistance
exceed drive force), refuting "monotonically non-decreasing velocity". -/
theorem claim_C3_cex :
    (run_simulation m0 eZeroTorque 1 1 none 50).length = 2 ∧
      ((run_simulation m0 eZeroTorque 1 1 none 50).getD 1 snap0).velocity <
        ((run_simulation m0 eZeroTorque 1 1 none 50).getD 0 snap0).velocity :=
  of_decide_eq_true (by with_unfolding_all rfl)

/-- C3 (amended): with a non-negative start velocity and timestep, the
snapshot distances of a run are monotonically non-decreasing (velocity is
clamped at 0 but need not be monotone). -/
theorem claim_C3_distance_mono (m : MathPrims) (e : Engine)
    (timestep max_time : ℚ) (td : Option ℚ) (sv : ℚ)
    (hsv : 0 ≤ sv) (hdt : 0 ≤ timestep) :
    ((run_simulation m e timestep max_time td sv).map
      TimeSnapshot.distance).Pairwise (· ≤ ·) :=
  (runSimAux_dist_mono m timestep max_time td hdt _ _ hsv).1

/-- Witness for C3 (amended): the distances of the concrete two-snapshot run
above are non-decreasing. -/
theorem claim_C3_distance_mono_witness :
    ((run_simulation m0 eZeroTorque 1 1 none 50).map
      TimeSnapshot.distance).Pairwise (· ≤ ·) :=
  claim_C3_distance_mono m0 eZeroTorque 1 1 none 50
    (of_decide_eq_true (by with_unfolding_all rfl))
    (of_decide_eq_true (by with_unfolding_all rfl))

/-- C4 counterexample: the constructor performs no validation — for a vehicle
with a 1-point torque curve and an empty gear sequence, construction succeeds
and the engine is usable: a run returns a snapshot (in gear 1), instead of the
construction-time failure the claim asserts. -/
theorem claim_C4_cex :
    vDegenerate.torque_curve.length < 2 ∧ vDegenerate.gear_ratios = [] ∧
    (run_simulation m0 eDegenerate 1 0 none 0).length = 1 ∧
    ((run_simulation m0 eDegenerate 1 0 none 0).getD 0 snap0).gear = 1 :=
  of_decide_eq_true (by with_unfolding_all rfl)

/-- C4 (amended): construction never rejects a degenerate specification; with
an empty gear-ratio sequence the engine is still usable and every wheel-torque
computation returns 0 (every gear number is out of range). -/
theorem claim_C4_no_validation (m : MathPrims) (e : Engine) (rpm : ℚ) (gear : ℤ)
    (velocity_ms : ℚ) (h : e.vehicle.gear_ratios = []) :
    calculate_wheel_torque m e rpm gear velocity_ms = 0 := by
  unfold calculate_wheel_torque
  rw [if_pos]
  rw [h]
  simp only [List.length_nil, Nat.cast_zero]
  omega

/-- Witness for C4 (amended): the degenerate engine's wheel torque is 0. -/
theorem claim_C4_no_validation_witness :
    calculate_wheel_torque m0 eDegenerate 3000 1 5 = 0 :=
  claim_C4_no_validation m0 eDegenerate 3000 1 5
    (of_decide_eq_true (by with_unfolding_all rfl))

/-- C5 (code bug): for a rolling start at 3 m/s (launch control enabled,
default completion speed 5 m/s), `run_simulation` writes
`launch_control_active := false` but `simulate_launch_control` never reads
that flag — the initial gear is 2 (chosen by the 50–90 % window scan with its
last-gear fallback), yet the first step's launch-control override still fires
and records gear 1 in the first snapshot. -/
theorem claim_C5_rolling_start_launch_bug :
    get_gear_for_velocity eLaunch 3 = 2 ∧
    (simulate_launch_control m0
      { initialize_state eLaunch with launch_control_active := false } 3 1).2.1 = true ∧
    (run_simulation m0 eLaunch 1 0 none 3).length = 1 ∧
    ((run_simulation m0 eLaunch 1 0 none 3).getD 0 snap0).gear = 1 :=
  of_decide_eq_true (by with_unfolding_all rfl)

/-- C6 counterexample: with 1 bar of boost (multiplier 1.12) and a 100 Nm
electric motor, the wheel torque computed by the code differs from the claimed
formula `(engine_torque + electric_torque) · boost · gear_ratio · final_drive
· efficiency` — the code multiplies only the engine torque by the boost
multiplier before adding electric torque. -/
theorem claim_C6_cex :
    calculate_wheel_torque m0 eHybridBoost 3000 1 10 ≠
      (interpolate_torque eHybridBoost.vehicle.torque_curve 3000 +
        calculate_electric_torque m0 eHybridBoost 10) *
      get_boost_multiplier eHybridBoost * 3 * 3.36 * 0.95 :=
  of_decide_eq_true (by with_unfolding_all rfl)

/-- C6 (amended): for every in-range gear, wheel torque equals
`(engine_torque · boost_multiplier + electric_torque) · gear_ratio ·
final_drive · efficiency`, with efficiency reduced by the shift power loss
while a shift is in progress — boost multiplies the interpolated engine
torque only, before the electric torque is added. -/
theorem claim_C6_boost_on_engine_torque (m : MathPrims) (e : Engine) (rpm : ℚ)
    (gear : ℤ) (velocity_ms : ℚ) (h1 : 1 ≤ gear)
    (h2 : gear ≤ (e.vehicle.gear_ratios.length : ℤ)) :
    calculate_wheel_torque m e rpm gear velocity_ms =
      (interpolate_torque e.vehicle.torque_curve rpm * get_boost_multiplier e +
        calculate_electric_torque m e velocity_ms) *
      (pyIdx e.vehicle.gear_ratios (gear - 1) * e.vehicle.final_drive) *
      (if e.is_shifting then
        e.vehicle.transmission_efficiency * (1 - e.config.gearbox.shift_power_loss)
      else e.vehicle.transmission_efficiency) := by
  unfold calculate_wheel_torque
  rw [if_neg (by push_neg; omega)]

/-- Witness for C6 (amended): the corrected formula evaluated on the boosted
hybrid engine state. -/
theorem claim_C6_boost_on_engine_torque_witness :
    calculate_wheel_torque m0 eHybridBoost 3000 1 10 =
      (interpolate_torque eHybridBoost.vehicle.torque_curve 3000 *
          get_boost_multiplier eHybridBoost +
        calculate_electric_torque m0 eHybridBoost 10) *
      (pyIdx eHybridBoost.vehicle.gear_ratios (1 - 1) *
        eHybridBoost.vehicle.final_drive) *
      (if eHybridBoost.is_shifting then
        eHybridBoost.vehicle.transmission_efficiency *
          (1 - eHybridBoost.config.gearbox.shift_power_loss)
      else eHybridBoost.vehicle.transmission_efficiency) :=
  claim_C6_boost_on_engine_torque m0 eHybridBoost 3000 1 10
    (by omega) (of_decide_eq_true (by with_unfolding_all rfl))

/-- C8 counterexample: an engine with zero wear and tires exactly at the
optimal temperature, but on a wet track: the grip factor is the wet-weather
multiplier (0.60), not 1.0. -/
theorem claim_C8_cex :
    eWet.tire_wear = 0 ∧
    |avg_tire_temp eWet - eWet.config.tires.optimal_tire_temp| <
      eWet.config.tires.optimal_temp_window ∧
    get_tire_grip_factor eWet ≠ 1 :=
  of_decide_eq_true (by with_unfolding_all rfl)

/-- C8 (amended): with zero wear and average tire temperature strictly within
the optimal window, the grip factor equals the weather grip multiplier of the
configured track condition (so it is 1.0 exactly when that multiplier is 1,
e.g. on the default dry track). -/
theorem claim_C8_grip_equals_weather (e : Engine) (hw : e.tire_wear = 0)
    (ht : |avg_tire_temp e - e.config.tires.optimal_tire_temp| <
      e.config.tires.optimal_temp_window) :
    get_tire_grip_factor e = weather_grip_factor e.config.weather := by
  simp only [get_tire_grip_factor]
  rw [if_pos ht, hw]
  ring

/-- Witness for C8 (amended): the wet-track engine's grip factor equals its
weather multiplier. -/
theorem claim_C8_grip_equals_weather_witness :
    get_tire_grip_factor eWet = weather_grip_factor eWet.config.weather :=
  claim_C8_grip_equals_weather eWet
    (of_decide_eq_true (by with_unfolding_all rfl))
    (of_decide_eq_true (by with_unfolding_all rfl))

/-- Gear selection never selects a lower gear when velocity is at least
1 m/s: it returns the current gear or the next one up. -/
lemma select_gear_ge (e : Engine) (velocity_ms : ℚ) (gear : ℤ) (rpm : ℚ)
    (hv : 1 ≤ velocity_ms) : gear ≤ (select_gear e velocity_ms gear rpm).2 := by
  unfold select_gear
  rw [if_neg (not_lt.mpr hv)]
  split_ifs with hs
  · have hlen : gear < (e.vehicle.gear_ratios.length : ℤ) := by
      by_contra hco
      push_neg at hco
      unfold should_shift_up at hs
      rw [if_pos (Or.inl hco)] at hs
      exact absurd hs (by simp)
    exact le_min (by omega) (by omega)
  · exact le_rfl

/-- When launch control cannot fire (disabled, already completed, or velocity
past the completion speed), `simulate_launch_control` reports inactive. -/
lemma simulate_launch_control_inactive (m : MathPrims) (e : Engine)
    (velocity_ms dt : ℚ)
    (hl : e.config.launch_control.enabled = false ∨ e.launch_completed = true ∨
      e.config.launch_control.completion_speed < velocity_ms) :
    (simulate_launch_control m e velocity_ms dt).2.1 = false := by
  unfold simulate_launch_control
  split_ifs with h1 h2
  · rfl
  · rfl
  · exfalso
    push_neg at h1
    rcases hl with h | h | h
    · rw [h] at h1; exact absurd h1.1 (by simp)
    · exact h1.2 h
    · exact h2 h

/-- C9 counterexample: the two-gear zero-torque engine rolled from 2 m/s
(launch control disabled) starts in gear 2, decelerates below 1 m/s, and the
gear selector then resets to gear 1: the snapshot gears are `[2, 1]`, a
downshift. -/
theorem claim_C9_cex :
    (run_simulation m0 eTwoGear 1 1 none 2).length = 2 ∧
    ((run_simulation m0 eTwoGear 1 1 none 2).getD 0 snap0).gear = 2 ∧
    ((run_simulation m0 eTwoGear 1 1 none 2).getD 1 snap0).gear = 1 :=
  of_decide_eq_true (by with_unfolding_all rfl)

/-- C9 (amended): the gear returned by a step never decreases as long as the
incoming velocity is at least 1 m/s and the launch-control override cannot
fire (disabled, completed, or velocity past the completion speed); the only
downshifts are the reset to gear 1 when velocity drops below 1 m/s or when
launch control forces gear 1. -/
theorem claim_C9_no_downshift (m : MathPrims) (e : Engine) (velocity_ms : ℚ)
    (gear : ℤ) (dt : ℚ) (hv : 1 ≤ velocity_ms)
    (hl : e.config.launch_control.enabled = false ∨ e.launch_completed = true ∨
      e.config.launch_control.completion_speed < velocity_ms) :
    gear ≤ (simulate_step m e velocity_ms gear dt).2.2.2.1 := by
  have hconv : (simulate_step m e velocity_ms gear dt).2.2.2.1 =
      (resolve_gear_rpm m e velocity_ms gear dt).2.1 := rfl
  rw [hconv]
  have hlc : (simulate_launch_control m (shift_timer_step e dt) velocity_ms dt).2.1 =
      false := by
    apply simulate_launch_control_inactive
    simpa using hl
  unfold resolve_gear_rpm
  simp only [hlc, Bool.false_eq_true, if_false]
  split_ifs with hne
  · exact select_gear_ge _ _ _ _ hv
  · exact le_rfl

/-- Witness for C9 (amended): a step of the zero-torque engine at 50 m/s in
gear 1 (launch control disabled) does not lower the gear. -/
theorem claim_C9_no_downshift_witness :
    (1 : ℤ) ≤ (simulate_step m0 eZeroTorque 50 1 1).2.2.2.1 :=
  claim_C9_no_downshift m0 eZeroTorque 50 1 1
    (of_decide_eq_true (by with_unfolding_all rfl))
    (Or.inl (of_decide_eq_true (by with_unfolding_all rfl)))
